import Mathlib

/-!
Verification of the HomeWorld2D real-time combat and fleet-simulation core.

The Python sources under `spacegame/` are shallowly embedded: mutable
objects become immutable structures with explicit state passing, float
arithmetic becomes exact rational (ℚ) arithmetic (real-valued geometry,
where square roots appear, uses ℝ), and Euclidean distance comparisons
`v.length() <= r` are embedded as the equivalent `distSq v ≤ r ^ 2`
(equivalent for the nonnegative radii used by the code).

Members of `SpaceUnit` (`fleet_unit.py`), `ExpeditionShip.add_resource`
and the configuration constants are not part of the provided sources;
where a definition is reconstructed from the specification instead of the
source its doc comment starts with "Modelled from the spec:".

The file is organised as: data model and operation embeddings, concrete
scenario constants, then the theorems.
-/

namespace SpaceGame

/-- Embedding of `pygame.math.Vector2` with exact rational coordinates. -/
structure Vec2 where
  x : ℚ
  y : ℚ
deriving DecidableEq, Repr

instance : Add Vec2 := ⟨fun a b => ⟨a.x + b.x, a.y + b.y⟩⟩

instance : Sub Vec2 := ⟨fun a b => ⟨a.x - b.x, a.y - b.y⟩⟩

instance : Zero Vec2 := ⟨⟨0, 0⟩⟩

/-- Scalar division of a vector (Vector2 / scalar in pygame). -/
def Vec2.div (v : Vec2) (q : ℚ) : Vec2 := ⟨v.x / q, v.y / q⟩

/-- Squared Euclidean distance between two points.  The source compares
`(p - q).length() <= r`; for `r ≥ 0` this is equivalent to
`distSq p q ≤ r ^ 2`, which is how every range check is embedded.
`length_squared()` comparisons are embedded verbatim. -/
def Vec2.distSq (a b : Vec2) : ℚ :=
  (a.x - b.x) ^ 2 + (a.y - b.y) ^ 2

/-- Embedding of `Asteroid` (`models/asteroids/asteroid.py`): position,
tier, ore-type letter, purity in [0,1], bounding radius. -/
structure Asteroid where
  pos : Vec2
  tier : ℤ
  ore_type : String
  purity : ℚ
  radius : ℤ
deriving DecidableEq, Repr

/-- View of a `SpaceUnit` as a heal target: the fields of the unit that
`resource_collector.py` reads and writes (`pos`, `health`, `max_health`,
`armor`, `max_armor`). -/
structure ShipRef where
  pos : Vec2
  health : ℚ
  max_health : ℚ
  armor : ℚ
  max_armor : ℚ
deriving DecidableEq, Repr

/-- Mothership view used by `ResourceCollector.update_mining`: a position
and an ore inventory (counter per ore-type letter). -/
structure Mothership where
  pos : Vec2
  inventory : String → ℤ

/-- Modelled from the spec: `ExpeditionShip.add_resource` is not under the
provided sources; the spec says the delivered amount is credited "to the
mothership's ore inventory for that ore type", so it adds `amount` to the
counter for `ore`. -/
def Mothership.add_resource (m : Mothership) (ore : String) (amount : ℤ) : Mothership :=
  { m with inventory := fun k => if k = ore then m.inventory k + amount else m.inventory k }

/-- Embedding of Python 3 `round` on an exact rational: round to the
nearest integer, ties to the even integer (banker's rounding).  The
source computes `int(round(x))`; `round` already yields an integral
value, so the outer `int` is the identity there. -/
def pyRound (q : ℚ) : ℤ :=
  let f : ℤ := ⌊q⌋
  let r : ℚ := q - f
  if r < 1 / 2 then f
  else if 1 / 2 < r then f + 1
  else if f % 2 = 0 then f else f + 1

/-- Embedding of the mutable state of `ResourceCollector`
(`models/units/resource_collector.py`): its position, its mover's current
destination, and the healing/mining state machine fields.
`mining_capacity` is the per-instance field initialised to 150.0. -/
structure Collector where
  pos : Vec2
  mover_target : Vec2
  healing_target : Option ShipRef
  mining_target : Option Asteroid
  mining_fill : ℚ
  mining_capacity : ℚ
  returning_to_ship : Bool
deriving DecidableEq, Repr

/-- `ResourceCollector.HEAL_RATE` (health/armor healed per second). -/
def HEAL_RATE : ℚ := 15

/-- `ResourceCollector.HEAL_RANGE`. -/
def HEAL_RANGE : ℚ := 60

/-- `ResourceCollector.MINE_RATE` (units filled per second). -/
def MINE_RATE : ℚ := 10

/-- `ResourceCollector.MINE_RANGE`. -/
def MINE_RANGE : ℚ := 60

/-- `ResourceCollector.UNLOAD_RATE` (units unloaded per second). -/
def UNLOAD_RATE : ℚ := 75

/-- The dock radius hardcoded as `60.0` in `update_mining`. -/
def DOCK_RADIUS : ℚ := 60

/-- `ResourceCollector.cancel_mining`: clears the mining target and the
returning flag, keeps the collected fill. -/
def Collector.cancel_mining (c : Collector) : Collector :=
  { c with mining_target := none, returning_to_ship := false }

/-- `ResourceCollector.cancel_healing`: clears the heal target. -/
def Collector.cancel_healing (c : Collector) : Collector :=
  { c with healing_target := none }

/-- `ResourceCollector.start_healing`: cancels mining, sets the heal
target and steers toward it. -/
def Collector.start_healing (c : Collector) (target : ShipRef) : Collector :=
  let c := c.cancel_mining
  { c with healing_target := some target, mover_target := target.pos }

/-- `ResourceCollector.start_mining`: cancels healing, sets the mining
target, clears the returning flag and steers toward the asteroid. -/
def Collector.start_mining (c : Collector) (asteroid : Asteroid) : Collector :=
  let c := c.cancel_healing
  { c with mining_target := some asteroid, returning_to_ship := false,
           mover_target := asteroid.pos }

/-- `ResourceCollector.is_mining`: true iff a mining target is set or the
fill is positive. -/
def Collector.is_mining (c : Collector) : Bool :=
  c.mining_target.isSome || decide (0 < c.mining_fill)

/-- `ResourceCollector.is_healing`: true iff a heal target is set. -/
def Collector.is_healing (c : Collector) : Bool :=
  c.healing_target.isSome

/-- `ResourceCollector.stop_and_dump`: clears the mining target, resets
the fill to 0 and clears the returning flag. -/
def Collector.stop_and_dump (c : Collector) : Collector :=
  { c with mining_target := none, mining_fill := 0, returning_to_ship := false }

/-- `ResourceCollector._apply_healing`: heal `HEAL_RATE * dt`, refilling
the armor deficit first (when the target has `max_armor > 0`) and letting
only the remainder go to the health deficit. -/
def apply_healing (target : ShipRef) (dt : ℚ) : ShipRef :=
  let heal_amount := HEAL_RATE * dt
  let step :=
    if 0 < target.max_armor then
      let armor_deficit := target.max_armor - target.armor
      if 0 < armor_deficit then
        let armor_heal := min heal_amount armor_deficit
        ({ target with armor := target.armor + armor_heal }, heal_amount - armor_heal)
      else (target, heal_amount)
    else (target, heal_amount)
  let target := step.1
  let heal_amount := step.2
  if 0 < heal_amount then
    let health_deficit := target.max_health - target.health
    if 0 < health_deficit then
      { target with health := target.health + min heal_amount health_deficit }
    else target
  else target

/-- `ResourceCollector.update_mining`: approach the asteroid, fill while
within `MINE_RANGE`, flip to returning when full, unload within the dock
radius of the mothership, and on reaching zero fill credit
`int(round(capacity * purity))` ore of the asteroid's type to the
mothership and resume the cycle.  The mutable `self`/`mothership` pair
becomes an explicit state pair. -/
def Collector.update_mining (c : Collector) (ms : Option Mothership) (dt : ℚ) :
    Collector × Option Mothership :=
  -- First block: active mining at the asteroid.
  let c :=
    match c.mining_target with
    | some ast =>
      if c.returning_to_ship then c
      else if Vec2.distSq ast.pos c.pos ≤ MINE_RANGE ^ 2 then
        let c := { c with mover_target := c.pos,
                          mining_fill := min c.mining_capacity (c.mining_fill + MINE_RATE * dt) }
        if c.mining_fill ≥ c.mining_capacity then
          let c := { c with mining_fill := c.mining_capacity, returning_to_ship := true }
          match ms with
          | some m => { c with mover_target := m.pos }
          | none => c
        else c
      else { c with mover_target := ast.pos }
    | none => c
  -- Second block: returning to the mothership to unload.
  match ms with
  | none => (c, none)
  | some m =>
    if c.returning_to_ship then
      let c := { c with mover_target := m.pos }
      if Vec2.distSq m.pos c.pos ≤ DOCK_RADIUS ^ 2 then
        let c := { c with mining_fill := max 0 (c.mining_fill - UNLOAD_RATE * dt) }
        if c.mining_fill ≤ 0 then
          let m :=
            match c.mining_target with
            | some ast => m.add_resource ast.ore_type (pyRound (c.mining_capacity * ast.purity))
            | none => m
          let c := { c with mining_fill := 0, returning_to_ship := false }
          let c :=
            match c.mining_target with
            | some ast => { c with mover_target := ast.pos }
            | none => c
          (c, some m)
        else (c, some m)
      else (c, some m)
    else (c, some m)

-- ------------------------------------------------------------------
-- Combat model: units, projectile payloads, damage routing
-- ------------------------------------------------------------------

/-- Combat-relevant state of a `SpaceUnit` (`fleet_unit.py`, whose source
is not provided): position, health/armor with maxima, per-shot damage
values, fire range, and the cooldown timer with its period. -/
structure CombatUnit where
  pos : Vec2
  health : ℚ
  max_health : ℚ
  armor : ℚ
  max_armor : ℚ
  bullet_damage : ℚ
  armor_damage : ℚ
  fire_range : ℚ
  cooldown : ℚ
  fire_period : ℚ
deriving DecidableEq, Repr

/-- Modelled from the spec: `SpaceUnit.take_damage` is not under the
provided sources; the spec says it "subtracts from health, floored
at 0". -/
def CombatUnit.take_damage (u : CombatUnit) (amount : ℚ) : CombatUnit :=
  { u with health := max 0 (u.health - amount) }

/-- Modelled from the spec: `SpaceUnit.take_armor_damage` is not under
the provided sources; the spec says it "subtracts from armor, floored at
0; excess is NOT carried over to health in the same call". -/
def CombatUnit.take_armor_damage (u : CombatUnit) (amount : ℚ) : CombatUnit :=
  { u with armor := max 0 (u.armor - amount) }

/-- Modelled from the spec: `SpaceUnit.heal` is not under the provided
sources; the invariant "health and armor never exceed their max" makes
the addition clamp at `max_health`. -/
def CombatUnit.heal (u : CombatUnit) (amount : ℚ) : CombatUnit :=
  { u with health := min u.max_health (u.health + amount) }

/-- Modelled from the spec: `SpaceUnit.set_armor` is not under the
provided sources; the invariant "health and armor never exceed their
max" makes the setter clamp at `max_armor`. -/
def CombatUnit.set_armor (u : CombatUnit) (value : ℚ) : CombatUnit :=
  { u with armor := min u.max_armor value }

/-- Modelled from the spec: `SpaceUnit.is_target_in_range` is not under
the provided sources; the spec says "true iff Euclidean distance ≤
fireRange", embedded with the equivalent squared comparison. -/
def CombatUnit.is_target_in_range (u other : CombatUnit) : Bool :=
  decide (Vec2.distSq other.pos u.pos ≤ u.fire_range ^ 2)

/-- Modelled from the spec: `SpaceUnit.ready_to_fire` is not under the
provided sources; the spec says "true iff cooldown timer ≤ 0". -/
def CombatUnit.ready_to_fire (u : CombatUnit) : Bool :=
  decide (u.cooldown ≤ 0)

/-- Modelled from the spec: `SpaceUnit.reset_cooldown` is not under the
provided sources; the spec says it "sets cooldown timer to the unit's
fire period". -/
def CombatUnit.reset_cooldown (u : CombatUnit) : CombatUnit :=
  { u with cooldown := u.fire_period }

/-- Payload view of a `Projectile` as used by the collision resolver
(`core/utils.py`): origin, direction of travel, hull/armor damage and
the ownership flag.  (Ballistic motion itself is embedded separately
over ℝ as `Projectile`.) -/
structure CombatProjectile where
  pos : Vec2
  dir : Vec2
  hull_damage : ℚ
  armor_damage : ℚ
  owner_is_enemy : Bool
deriving DecidableEq, Repr

/-- Damage routing applied per projectile hit
(`handle_projectile_collisions`, utils.py lines 67-70 and 82-85): if the
unit has max armor > 0 and armor > 0 the armor damage is applied via
`take_armor_damage`, otherwise the hull damage via `take_damage`. -/
def routeProjectileDamage (u : CombatUnit) (proj : CombatProjectile) : CombatUnit :=
  if 0 < u.max_armor ∧ 0 < u.armor then u.take_armor_damage proj.armor_damage
  else u.take_damage proj.hull_damage

/-- Damage routing applied per collision-damage application
(`handle_collisions`, game_screen.py lines 77-85): the same binary
choice, with `dmg = SpaceUnit.COLLISION_DPS * dt` applied entirely to
armor or entirely to health. -/
def routeCollisionDamage (u : CombatUnit) (dmg : ℚ) : CombatUnit :=
  if 0 < u.max_armor ∧ 0 < u.armor then u.take_armor_damage dmg
  else u.take_damage dmg

/-- Inner per-projectile body of `handle_projectile_collisions`
(utils.py lines 64-93) without the blanket handler: walk the opposing
fleet in iteration order, route the damage of the first unit the
projectile collides with, and report whether a hit (projectile
destroyed) happened.  The geometric test `collides_with_shape`
(sprite-mask sampling) is abstracted as the `hits` parameter, and the
damage application is the `dmg` parameter so that an application that
raises an exception can be modelled as `Except.error`. -/
def resolveProjectileE (hits : CombatProjectile → CombatUnit → Bool)
    (dmg : CombatUnit → CombatProjectile → Except String CombatUnit)
    (proj : CombatProjectile) :
    List CombatUnit → Except String (List CombatUnit × Bool)
  | [] => Except.ok ([], false)
  | u :: rest =>
    if hits proj u then
      match dmg u proj with
      | Except.error e => Except.error e
      | Except.ok u2 => Except.ok (u2 :: rest, true)
    else
      match resolveProjectileE hits dmg proj rest with
      | Except.error e => Except.error e
      | Except.ok p => Except.ok (u :: p.1, p.2)

/-- `handle_projectile_collisions` (utils.py lines 60-101): iterate the
projectiles; an enemy projectile is resolved against the player fleet,
a player projectile against the enemy fleet; the whole per-projectile
body sits inside a blanket `except Exception:` that destroys the
projectile (`proj.explode()`) and continues with the next one, so the
resolver is total even when the damage application raises.  Returns the
surviving projectiles and the two updated fleets. -/
def handleProjectileCollisionsE (hits : CombatProjectile → CombatUnit → Bool)
    (dmg : CombatUnit → CombatProjectile → Except String CombatUnit) :
    List CombatProjectile → List CombatUnit → List CombatUnit →
    List CombatProjectile × List CombatUnit × List CombatUnit
  | [], player, enemy => ([], player, enemy)
  | proj :: rest, player, enemy =>
    let step : List CombatUnit × List CombatUnit × Bool :=
      if proj.owner_is_enemy then
        match resolveProjectileE hits dmg proj player with
        | Except.ok p => (p.1, enemy, p.2)
        | Except.error _ => (player, enemy, true)
      else
        match resolveProjectileE hits dmg proj enemy with
        | Except.ok p => (player, p.1, p.2)
        | Except.error _ => (player, enemy, true)
    let r := handleProjectileCollisionsE hits dmg rest step.1 step.2.1
    (if step.2.2 then r.1 else proj :: r.1, r.2.1, r.2.2)

/-- `handle_projectile_collisions` with the damage application that the
source actually performs (the `take_armor_damage`/`take_damage` routing,
which does not raise). -/
def handle_projectile_collisions (hits : CombatProjectile → CombatUnit → Bool)
    (projs : List CombatProjectile) (player enemy : List CombatUnit) :
    List CombatProjectile × List CombatUnit × List CombatUnit :=
  handleProjectileCollisionsE hits (fun u pr => Except.ok (routeProjectileDamage u pr))
    projs player enemy

/-- The death-pruning phase of `run_game` (game_screen.py lines 975-976):
keep only units with `health > 0.0`. -/
def pruneDead (fleet : List CombatUnit) : List CombatUnit :=
  fleet.filter fun s => decide (0 < s.health)

/-- Inner loop of the collision-damage part of `handle_collisions`
(game_screen.py lines 74-85): one player unit against every enemy; both
sides of each touching pair receive the routed damage.  The geometric
test `collides_with` is the `collide` parameter (the separation passes,
which only adjust positions via `Mover.separate_rotated`, are abstracted
into it). -/
def collideRow (collide : CombatUnit → CombatUnit → Bool) (dmg : ℚ)
    (p : CombatUnit) : List CombatUnit → CombatUnit × List CombatUnit
  | [] => (p, [])
  | e :: rest =>
    if collide p e then
      let p2 := routeCollisionDamage p dmg
      let e2 := routeCollisionDamage e dmg
      let r := collideRow collide dmg p2 rest
      (r.1, e2 :: r.2)
    else
      let r := collideRow collide dmg p rest
      (r.1, e :: r.2)

/-- Collision-damage part of `handle_collisions` (game_screen.py lines
49-85): every touching player-enemy pair exchanges
`SpaceUnit.COLLISION_DPS * dt` damage (passed here as `dmg`), routed per
`routeCollisionDamage`.  No unit is ever removed here. -/
def handle_collisions (collide : CombatUnit → CombatUnit → Bool) (dmg : ℚ) :
    List CombatUnit → List CombatUnit → List CombatUnit × List CombatUnit
  | [], enemy => ([], enemy)
  | p :: rest, enemy =>
    let r := collideRow collide dmg p enemy
    let rr := handle_collisions collide dmg rest r.2
    (r.1 :: rr.1, rr.2)

/-- The fleets as they stand when `run_game` reaches the residual
collision-damage call: projectile collisions are resolved first
(line 945), then the dead are pruned (lines 975-976), and these pruned
lists are what line 1005 passes to `handle_collisions`. -/
def residualPhaseFleets (hits : CombatProjectile → CombatUnit → Bool)
    (projs : List CombatProjectile) (player enemy : List CombatUnit) :
    List CombatUnit × List CombatUnit :=
  let r := handle_projectile_collisions hits projs player enemy
  (pruneDead r.2.1, pruneDead r.2.2)

/-- The combat-relevant tail of one `run_game` tick, in source order:
projectile collision resolution, death pruning, then the residual
collision damage.  Earlier phases of the tick (steering, mining,
cooldowns) do not change fleet membership or health and are not part of
this slice.  The tick ends after `handle_collisions` with no further
pruning, so a unit killed there stays in its fleet until the next tick. -/
def tickCombatPhases (hits : CombatProjectile → CombatUnit → Bool)
    (collide : CombatUnit → CombatUnit → Bool) (dmg : ℚ)
    (projs : List CombatProjectile) (player enemy : List CombatUnit) :
    List CombatUnit × List CombatUnit :=
  let pe := residualPhaseFleets hits projs player enemy
  handle_collisions collide dmg pe.1 pe.2

/-- Nearest-target selection of `handle_auto_fire` (utils.py line 40):
Python `min` by squared distance, returning the first minimum in
iteration order. -/
def nearestTarget (s : CombatUnit) : List CombatUnit → Option CombatUnit
  | [] => none
  | u :: rest =>
    match nearestTarget s rest with
    | none => some u
    | some v => if Vec2.distSq v.pos s.pos < Vec2.distSq u.pos s.pos then some v else some u

/-- Per-source loop of `handle_auto_fire` (utils.py lines 37-57): skip
sources with nonpositive bullet damage; otherwise select the nearest
target, and if it is in range and the source is ready to fire, spawn one
projectile toward it and reset the cooldown.  The cosmetic `color` and
the enemy `speed_factor` do not affect combat state and are omitted. -/
def autoFireGo (target : List CombatUnit) (owner_is_enemy : Bool) :
    List CombatUnit → List CombatUnit × List CombatProjectile
  | [] => ([], [])
  | s :: rest =>
    let r := autoFireGo target owner_is_enemy rest
    if s.bullet_damage ≤ 0 then (s :: r.1, r.2)
    else
      match nearestTarget s target with
      | none => (s :: r.1, r.2)
      | some nr =>
        if s.is_target_in_range nr && s.ready_to_fire then
          (s.reset_cooldown :: r.1,
           { pos := s.pos, dir := nr.pos - s.pos, hull_damage := s.bullet_damage,
             armor_damage := s.armor_damage,
             owner_is_enemy := owner_is_enemy } :: r.2)
        else (s :: r.1, r.2)

/-- `handle_auto_fire` (utils.py lines 31-57): returns the updated
sources (cooldowns reset where a shot was fired) and the spawned
projectiles; does nothing when the target fleet is empty. -/
def handle_auto_fire (source target : List CombatUnit) (owner_is_enemy : Bool) :
    List CombatUnit × List CombatProjectile :=
  if target.isEmpty then (source, [])
  else autoFireGo target owner_is_enemy source

/-- Station-area healing of one player ship per tick (game_screen.py
lines 650-656): heal health if below max, then raise armor by
`healing_rate * dt` if below max. -/
def stationHealStep (healing_rate dt : ℚ) (u : CombatUnit) : CombatUnit :=
  let u := if u.health < u.max_health then u.heal (healing_rate * dt) else u
  if u.armor < u.max_armor then u.set_armor (u.armor + healing_rate * dt) else u

-- ------------------------------------------------------------------
-- Selection and command model
-- ------------------------------------------------------------------

/-- Selection/command-relevant state of a player unit: position, the
half-extents of its bounding shape (for click hit-testing), the
selection and recall flags, and its mover's formation offset and
destination. -/
structure SelUnit where
  pos : Vec2
  half_w : ℚ
  half_h : ℚ
  selected : Bool
  recalling : Bool
  formation_offset : Vec2
  mover_target : Vec2
deriving DecidableEq, Repr

/-- Modelled from the spec: `SpaceUnit.point_inside` is not under the
provided sources; the spec says it hit-tests a click "against the unit's
shape", modelled as the axis-aligned bounding box of the ship size
centred at the unit's position. -/
def SelUnit.point_inside (u : SelUnit) (p : Vec2) : Bool :=
  decide (|p.x - u.pos.x| ≤ u.half_w) && decide (|p.y - u.pos.y| ≤ u.half_h)

/-- Embedding of `pygame.Rect` (integer origin and extents). -/
structure PyRect where
  x : ℤ
  y : ℤ
  w : ℤ
  h : ℤ
deriving DecidableEq, Repr

/-- `pygame.Rect.normalize`: flip a negative width or height in place,
moving the origin so the rectangle covers the same area. -/
def PyRect.normalize (r : PyRect) : PyRect :=
  let xw : ℤ × ℤ := if r.w < 0 then (r.x + r.w, -r.w) else (r.x, r.w)
  let yh : ℤ × ℤ := if r.h < 0 then (r.y + r.h, -r.h) else (r.y, r.h)
  ⟨xw.1, yh.1, xw.2, yh.2⟩

/-- `pygame.Rect.collidepoint` on a rational point: inside the rectangle,
with the right and bottom edges excluded. -/
def PyRect.collidepoint (r : PyRect) (p : Vec2) : Bool :=
  decide ((r.x : ℚ) ≤ p.x) && decide (p.x < ((r.x + r.w : ℤ) : ℚ)) &&
  decide ((r.y : ℚ) ≤ p.y) && decide (p.y < ((r.y + r.h : ℤ) : ℚ))

/-- The click-selection performed on MOUSEBUTTONDOWN (game_screen.py
lines 790-792): every player unit's `selected` flag becomes the result
of hit-testing the press point against it. -/
def clickSelect (units : List SelUnit) (p : Vec2) : List SelUnit :=
  units.map fun u => { u with selected := u.point_inside p }

/-- The MOUSEBUTTONUP handler (game_screen.py lines 799-805): normalise
the tracked drag rectangle; if both dimensions strictly exceed
`SELECTION_MIN_PIXELS` (a configuration constant passed here as
`minPx`), select exactly the units whose position the rectangle
contains; otherwise leave the selection unchanged. -/
def releaseSelect (units : List SelUnit) (r : PyRect) (minPx : ℤ) : List SelUnit :=
  let rect := r.normalize
  if minPx < rect.w ∧ minPx < rect.h then
    units.map fun u => { u with selected := rect.collidepoint u.pos }
  else units

/-- A full press-drag-release interaction: MOUSEBUTTONDOWN click-select
at the press point (which initialises the drag rectangle there), then
MOUSEMOTION growing the rectangle to the release point, then the
MOUSEBUTTONUP handler. -/
def dragSelect (units : List SelUnit) (press release : ℤ × ℤ) (minPx : ℤ) : List SelUnit :=
  releaseSelect (clickSelect units ⟨(press.1 : ℚ), (press.2 : ℚ)⟩)
    ⟨press.1, press.2, release.1 - press.1, release.2 - press.2⟩ minPx

/-- The `selected_shapes` list of the right-click handler
(game_screen.py lines 809-812): selected units that are not recalling. -/
def selectedShapes (units : List SelUnit) : List SelUnit :=
  units.filter fun s => s.selected && !s.recalling

/-- Python `sum((s.pos for s in shapes), Vector2(0,0))`. -/
def sumPos (l : List SelUnit) : Vec2 :=
  l.foldl (fun acc s => acc + s.pos) ⟨0, 0⟩

/-- The formation centre (game_screen.py line 826): mean position of the
selected shapes. -/
def centroid (l : List SelUnit) : Vec2 :=
  (sumPos l).div (l.length : ℚ)

/-- The right-click group-move handler (game_screen.py lines 807-831):
if any selected, non-recalling shapes exist, record each one's offset
from the centroid as its formation offset and set its mover target to
the click point plus that offset.  (The collector-specific
`cancel_healing`/`stop_and_dump` calls are covered by the `Collector`
embedding and do not affect movement targets.) -/
def group_move (units : List SelUnit) (click : Vec2) : List SelUnit :=
  let sel := selectedShapes units
  if sel.isEmpty then units
  else
    let center := centroid sel
    units.map fun s =>
      if s.selected && !s.recalling then
        { s with formation_offset := s.pos - center,
                 mover_target := click + (s.pos - center) }
      else s

-- ------------------------------------------------------------------
-- Real-valued projectile (core/projectile.py)
-- ------------------------------------------------------------------

/-- The direction normalisation in `Projectile.__init__`
(projectile.py lines 28-32): a zero-length direction becomes (1, 0),
anything else is normalised to unit length. -/
noncomputable def normalizeDir (d : ℝ × ℝ) : ℝ × ℝ :=
  if d.1 ^ 2 + d.2 ^ 2 = 0 then (1, 0)
  else (d.1 / Real.sqrt (d.1 ^ 2 + d.2 ^ 2), d.2 / Real.sqrt (d.1 ^ 2 + d.2 ^ 2))

/-- Ballistic state of a `Projectile` (core/projectile.py): position,
direction, speed, remaining lifetime.  Damage payload and ownership are
embedded separately as `CombatProjectile`. -/
structure Projectile where
  pos : ℝ × ℝ
  direction : ℝ × ℝ
  speed : ℝ
  lifetime : ℝ

/-- `Projectile.__init__`: stores the normalised direction (see
`normalizeDir`) together with speed and lifetime. -/
noncomputable def mkProjectile (pos d : ℝ × ℝ) (speed lifetime : ℝ) : Projectile :=
  { pos := pos, direction := normalizeDir d, speed := speed, lifetime := lifetime }

/-- `Projectile.update(dt)` (projectile.py lines 58-63): advance the
position by `direction * speed * dt` and decrement the lifetime (the
sprite is killed once the lifetime reaches ≤ 0; removal from the sprite
group is not part of the ballistic state). -/
noncomputable def Projectile.update (p : Projectile) (dt : ℝ) : Projectile :=
  { p with
    pos := (p.pos.1 + p.direction.1 * p.speed * dt, p.pos.2 + p.direction.2 * p.speed * dt),
    lifetime := p.lifetime - dt }

-- ------------------------------------------------------------------
-- Concrete scenario constants
-- ------------------------------------------------------------------

/-- Concrete asteroid used in the C1 counterexample. -/
def c1Asteroid : Asteroid :=
  { pos := ⟨0, 0⟩, tier := 0, ore_type := "M", purity := 1 / 2, radius := 28 }

/-- Concrete heal target used in the C1 counterexample. -/
def c1Target : ShipRef :=
  { pos := ⟨5, 5⟩, health := 100, max_health := 100, armor := 0, max_armor := 0 }

/-- Concrete collector state with a mining target set and a non-zero
mining fill of 10. -/
def c1Collector : Collector :=
  { pos := ⟨0, 0⟩, mover_target := ⟨0, 0⟩, healing_target := none,
    mining_target := some c1Asteroid, mining_fill := 10,
    mining_capacity := 150, returning_to_ship := false }

/-- Asteroid of purity 0.5 and ore type M used for the C2 scenario,
placed away from the mothership. -/
def c2Asteroid : Asteroid :=
  { pos := ⟨100, 0⟩, tier := 0, ore_type := "M", purity := 1 / 2, radius := 28 }

/-- Mothership with an empty inventory at the origin. -/
def c2Mothership0 : Mothership :=
  { pos := ⟨0, 0⟩, inventory := fun _ => 0 }

/-- Collector at the final unload tick of the C2 witness: already mined
to capacity and partially unloaded down to 75, docked at the mothership
with the mining target still set. -/
def c2WCollector : Collector :=
  { pos := ⟨0, 0⟩, mover_target := ⟨0, 0⟩, healing_target := none,
    mining_target := some c2Asteroid, mining_fill := 75,
    mining_capacity := 150, returning_to_ship := true }

/-- Collector at the mining-to-full tick of the C2 witness: at the
asteroid (out of dock range of the mothership) with fill 140, one
1-second tick away from capacity 150. -/
def c2MCollector : Collector :=
  { pos := ⟨100, 0⟩, mover_target := ⟨100, 0⟩, healing_target := none,
    mining_target := some c2Asteroid, mining_fill := 140,
    mining_capacity := 150, returning_to_ship := false }

/-- Armored unit for the C3 witness. -/
def c3Armored : CombatUnit :=
  { pos := ⟨0, 0⟩, health := 200, max_health := 200, armor := 80, max_armor := 100,
    bullet_damage := 10, armor_damage := 10, fire_range := 250, cooldown := 0,
    fire_period := 1 }

/-- Unarmored unit for the C3 witness. -/
def c3Unarmored : CombatUnit :=
  { pos := ⟨0, 0⟩, health := 200, max_health := 200, armor := 0, max_armor := 0,
    bullet_damage := 10, armor_damage := 10, fire_range := 250, cooldown := 0,
    fire_period := 1 }

/-- Projectile payload for the C3 witness: hull damage 50, armor
damage 30. -/
def c3Proj : CombatProjectile :=
  { pos := ⟨0, 0⟩, dir := ⟨1, 0⟩, hull_damage := 50, armor_damage := 30,
    owner_is_enemy := true }

/-- Collision predicate that always reports a hit (the victim sits on
the projectile's path). -/
def hitsAll : CombatProjectile → CombatUnit → Bool := fun _ _ => true

/-- Collision predicate for touching hulls that always reports contact. -/
def collideAll : CombatUnit → CombatUnit → Bool := fun _ _ => true

/-- Player unit with 10 health for the C4 counterexample: one enemy
projectile hit kills it. -/
def c4Victim : CombatUnit :=
  { pos := ⟨0, 0⟩, health := 10, max_health := 100, armor := 0, max_armor := 0,
    bullet_damage := 0, armor_damage := 0, fire_range := 0, cooldown := 0,
    fire_period := 1 }

/-- Enemy projectile with hull damage 50 for the C4 counterexample. -/
def c4Proj : CombatProjectile :=
  { pos := ⟨0, 0⟩, dir := ⟨1, 0⟩, hull_damage := 50, armor_damage := 30,
    owner_is_enemy := true }

/-- Player shooter for the C5 counterexample: positive bullet damage,
target in range, ready to fire. -/
def c5Shooter : CombatUnit :=
  { pos := ⟨0, 0⟩, health := 100, max_health := 100, armor := 0, max_armor := 0,
    bullet_damage := 5, armor_damage := 0, fire_range := 100, cooldown := 0,
    fire_period := 2 }

/-- Enemy unit for the C5 counterexample: 30 health, killed by the
residual collision damage of 40 at the end of the tick. -/
def c5Enemy : CombatUnit :=
  { pos := ⟨10, 0⟩, health := 30, max_health := 30, armor := 0, max_armor := 0,
    bullet_damage := 4, armor_damage := 0, fire_range := 150, cooldown := 1,
    fire_period := 2 }

/-- Damaged heal target for the C6 witness. -/
def c6Target : ShipRef :=
  { pos := ⟨0, 0⟩, health := 50, max_health := 100, armor := 90, max_armor := 100 }

/-- Damaged player unit for the C6 witness (station healing). -/
def c6Unit : CombatUnit :=
  { pos := ⟨0, 0⟩, health := 150, max_health := 200, armor := 70, max_armor := 100,
    bullet_damage := 10, armor_damage := 10, fire_range := 250, cooldown := 0,
    fire_period := 1 }

/-- Previously selected unit for the C7 counterexample, far from the
press point of the sub-threshold drag. -/
def c7Unit : SelUnit :=
  { pos := ⟨100, 100⟩, half_w := 5, half_h := 5, selected := true,
    recalling := false, formation_offset := ⟨0, 0⟩, mover_target := ⟨0, 0⟩ }

/-- Unit inside the C7 witness selection rectangle. -/
def c7Inside : SelUnit :=
  { pos := ⟨30, 40⟩, half_w := 5, half_h := 5, selected := false,
    recalling := false, formation_offset := ⟨0, 0⟩, mover_target := ⟨0, 0⟩ }

/-- Selected, non-recalling unit at the origin for the C8 witness. -/
def c8A : SelUnit :=
  { pos := ⟨0, 0⟩, half_w := 5, half_h := 5, selected := true,
    recalling := false, formation_offset := ⟨0, 0⟩, mover_target := ⟨0, 0⟩ }

/-- Selected, non-recalling unit at (4, 0) for the C8 witness. -/
def c8B : SelUnit :=
  { pos := ⟨4, 0⟩, half_w := 5, half_h := 5, selected := true,
    recalling := false, formation_offset := ⟨0, 0⟩, mover_target := ⟨0, 0⟩ }

/-- Unit hit by the failing damage application in the C9 counterexample. -/
def c9Unit : CombatUnit :=
  { pos := ⟨0, 0⟩, health := 60, max_health := 100, armor := 0, max_armor := 0,
    bullet_damage := 0, armor_damage := 0, fire_range := 0, cooldown := 0,
    fire_period := 1 }

/-- Enemy projectile that hits `c9Unit` in the C9 counterexample. -/
def c9Proj : CombatProjectile :=
  { pos := ⟨0, 0⟩, dir := ⟨1, 0⟩, hull_damage := 50, armor_damage := 30,
    owner_is_enemy := true }

/-- A damage application that always raises, modelling an exception
thrown inside `take_damage`/`take_armor_damage`. -/
def c9FailDmg : CombatUnit → CombatProjectile → Except String CombatUnit :=
  fun _ _ => Except.error "damage failure"

end SpaceGame

namespace SpaceGame

-- ------------------------------------------------------------------
-- Helper lemmas
-- ------------------------------------------------------------------

theorem Vec2.ext (a b : Vec2) (hx : a.x = b.x) (hy : a.y = b.y) : a = b := by
  cases a; cases b; simp_all

theorem Vec2.add_def (a b : Vec2) : a + b = ⟨a.x + b.x, a.y + b.y⟩ := rfl

theorem Vec2.sub_def (a b : Vec2) : a - b = ⟨a.x - b.x, a.y - b.y⟩ := rfl

theorem sumPos_perm {l1 l2 : List SelUnit} (h : l1.Perm l2) : sumPos l1 = sumPos l2 := by
  have key : ∀ acc : Vec2,
      l1.foldl (fun acc s => acc + s.pos) acc = l2.foldl (fun acc s => acc + s.pos) acc := by
    induction h with
    | nil => intro acc; rfl
    | cons x _ ih => intro acc; simp only [List.foldl_cons]; exact ih _
    | swap x y l =>
      intro acc
      simp only [List.foldl_cons]
      have : acc + y.pos + x.pos = acc + x.pos + y.pos := by
        apply Vec2.ext <;> simp [Vec2.add_def] <;> ring
      rw [this]
    | trans _ _ ih1 ih2 => intro acc; rw [ih1, ih2]
  exact key _

theorem collideRow_length (collide : CombatUnit → CombatUnit → Bool) (dmg : ℚ)
    (p : CombatUnit) (enemy : List CombatUnit) :
    (collideRow collide dmg p enemy).2.length = enemy.length := by
  induction enemy generalizing p with
  | nil => rfl
  | cons e rest ih =>
    simp only [collideRow]
    split <;> simp [ih]

theorem handle_collisions_length (collide : CombatUnit → CombatUnit → Bool) (dmg : ℚ)
    (player enemy : List CombatUnit) :
    (handle_collisions collide dmg player enemy).1.length = player.length ∧
    (handle_collisions collide dmg player enemy).2.length = enemy.length := by
  induction player generalizing enemy with
  | nil => simp [handle_collisions]
  | cons p rest ih =>
    simp only [handle_collisions, List.length_cons]
    refine ⟨by simp [(ih _).1], ?_⟩
    rw [(ih _).2, collideRow_length]

theorem pruneDead_all_alive (fleet : List CombatUnit) :
    ((pruneDead fleet).all fun u => decide (0 < u.health)) = true := by
  simp only [pruneDead, List.all_eq_true, List.mem_filter]
  intro u hu
  exact hu.2

theorem add_min_le {a b m : ℚ} : a + min b (m - a) ≤ m := by
  have hr := min_le_right b (m - a)
  linarith

theorem apply_healing_armor_le (t : ShipRef) (dt : ℚ) (h : t.armor ≤ t.max_armor) :
    (apply_healing t dt).armor ≤ t.max_armor := by
  unfold apply_healing
  dsimp only
  split_ifs <;> simp_all <;> first | linarith | exact add_min_le

theorem apply_healing_health_le (t : ShipRef) (dt : ℚ) (h : t.health ≤ t.max_health) :
    (apply_healing t dt).health ≤ t.max_health := by
  unfold apply_healing
  dsimp only
  split_ifs <;> simp_all <;> first | linarith | exact add_min_le

theorem apply_healing_max_health (t : ShipRef) (dt : ℚ) :
    (apply_healing t dt).max_health = t.max_health := by
  unfold apply_healing
  dsimp only
  split_ifs <;> rfl

theorem apply_healing_max_armor (t : ShipRef) (dt : ℚ) :
    (apply_healing t dt).max_armor = t.max_armor := by
  unfold apply_healing
  dsimp only
  split_ifs <;> rfl

theorem stationHealStep_health_le (rate dt : ℚ) (u : CombatUnit)
    (h : u.health ≤ u.max_health) :
    (stationHealStep rate dt u).health ≤ u.max_health := by
  unfold stationHealStep CombatUnit.heal CombatUnit.set_armor
  dsimp only
  split_ifs <;> simp_all [min_le_left]

theorem stationHealStep_armor_le (rate dt : ℚ) (u : CombatUnit)
    (h : u.armor ≤ u.max_armor) :
    (stationHealStep rate dt u).armor ≤ u.max_armor := by
  unfold stationHealStep CombatUnit.heal CombatUnit.set_armor
  dsimp only
  split_ifs <;> simp_all [min_le_left]

theorem stationHealStep_max_health (rate dt : ℚ) (u : CombatUnit) :
    (stationHealStep rate dt u).max_health = u.max_health := by
  unfold stationHealStep CombatUnit.heal CombatUnit.set_armor
  dsimp only
  split_ifs <;> rfl

theorem stationHealStep_max_armor (rate dt : ℚ) (u : CombatUnit) :
    (stationHealStep rate dt u).max_armor = u.max_armor := by
  unfold stationHealStep CombatUnit.heal CombatUnit.set_armor
  dsimp only
  split_ifs <;> rfl

theorem resolveProjectileE_error (hits : CombatProjectile → CombatUnit → Bool)
    (e : String) (dmg : CombatUnit → CombatProjectile → Except String CombatUnit)
    (hdmg : ∀ u p, dmg u p = Except.error e) (proj : CombatProjectile)
    (fleet : List CombatUnit) :
    resolveProjectileE hits dmg proj fleet =
      if fleet.any (hits proj) then Except.error e else Except.ok (fleet, false) := by
  induction fleet with
  | nil => simp [resolveProjectileE]
  | cons u rest ih =>
    simp only [resolveProjectileE, List.any_cons]
    by_cases hu : hits proj u = true
    · simp [hu, hdmg]
    · simp only [hu, if_false, ih]
      by_cases hr : rest.any (hits proj) = true
      · simp [hr, Bool.false_or, hu]
      · simp [hr, Bool.false_or, hu]

-- ------------------------------------------------------------------
-- C1: mutual exclusivity of mining and healing
-- ------------------------------------------------------------------

/-- C1 counterexample: starting healing while a mining target is set and
the mining fill is 10 does clear the mining target, but the subsequent
`is_mining()` still returns `true` (the fill is retained and
`is_mining` also tests `mining_fill > 0`), refuting the claim that it
returns `false` for every prior collector state. -/
theorem c1_counterexample :
    (c1Collector.start_healing c1Target).mining_target = none ∧
    (c1Collector.start_healing c1Target).is_mining = true := by
  constructor
  · rfl
  · simp [Collector.start_healing, Collector.cancel_mining, Collector.is_mining, c1Collector]

/-- C1 (amended): `start_healing` always clears the mining target and the
returning flag, but keeps the fill, so a subsequent `is_mining()` is
`false` exactly when the prior fill was not positive; `start_mining`
always clears the heal target so a subsequent `is_healing()` is `false`. -/
theorem c1_mutual_exclusion_amended (c : Collector) (t : ShipRef) (a : Asteroid) :
    (c.start_healing t).mining_target = none ∧
    (c.start_healing t).returning_to_ship = false ∧
    (c.start_healing t).mining_fill = c.mining_fill ∧
    ((c.start_healing t).is_mining = false ↔ ¬ 0 < c.mining_fill) ∧
    (c.start_mining a).healing_target = none ∧
    (c.start_mining a).is_healing = false := by
  refine ⟨rfl, rfl, rfl, ?_, rfl, rfl⟩
  simp [Collector.start_healing, Collector.cancel_mining, Collector.is_mining]

-- ------------------------------------------------------------------
-- C2: mining conservation
-- ------------------------------------------------------------------

/-- C2: (i) on the tick that empties the hold within dock radius of the
mothership while the mining target is still set, exactly
`round(capacity * purity)` ore of the asteroid's ore type is credited to
the mothership, the fill is reset to 0 and the returning flag cleared;
(ii) a mining tick in range of the asteroid that reaches capacity caps
the fill at the capacity and flips the returning flag; (iii) for
capacity 150 and purity 0.5 the delivered amount is exactly 75. -/
theorem c2_mining_conservation
    (c : Collector) (m : Mothership) (ast : Asteroid) (dt : ℚ)
    (htgt : c.mining_target = some ast)
    (hret : c.returning_to_ship = true)
    (hdock : Vec2.distSq m.pos c.pos ≤ DOCK_RADIUS ^ 2)
    (hempty : c.mining_fill - UNLOAD_RATE * dt ≤ 0) :
    ((c.update_mining (some m) dt).2 =
        some (m.add_resource ast.ore_type (pyRound (c.mining_capacity * ast.purity)))) ∧
    (c.update_mining (some m) dt).1.mining_fill = 0 ∧
    (c.update_mining (some m) dt).1.returning_to_ship = false ∧
    (∀ cm : Collector, cm.mining_target = some ast → cm.returning_to_ship = false →
      Vec2.distSq ast.pos cm.pos ≤ MINE_RANGE ^ 2 →
      ¬ Vec2.distSq m.pos cm.pos ≤ DOCK_RADIUS ^ 2 →
      cm.mining_capacity ≤ cm.mining_fill + MINE_RATE * dt →
      (cm.update_mining (some m) dt).1.mining_fill = cm.mining_capacity ∧
      (cm.update_mining (some m) dt).1.returning_to_ship = true) ∧
    pyRound (150 * (1 / 2)) = 75 := by
  have hpy : pyRound (150 * (1 / 2)) = 75 := by norm_num [pyRound]
  obtain ⟨cpos, cmov, chl, cmt, cfill, ccap, cret⟩ := c
  simp only [Collector.mining_target] at htgt
  simp only [Collector.returning_to_ship] at hret
  simp only [Collector.mining_fill] at hempty
  subst htgt hret
  have hdock2 : Vec2.distSq m.pos cpos ≤ DOCK_RADIUS ^ 2 := hdock
  refine ⟨?_, ?_, ?_, ?_, hpy⟩
  · simp [Collector.update_mining, hdock2, max_eq_left hempty]
  · simp [Collector.update_mining, hdock2, max_eq_left hempty]
  · simp [Collector.update_mining, hdock2, max_eq_left hempty]
  · rintro ⟨mpos, mmov, mhl, mmt, mfill, mcap, mret⟩ htgt2 hret2 hmine hoffdock hfull
    simp only [Collector.mining_target] at htgt2
    simp only [Collector.returning_to_ship] at hret2
    simp only [Collector.mining_fill, Collector.mining_capacity] at hfull
    subst htgt2 hret2
    have hmine2 : Vec2.distSq ast.pos mpos ≤ MINE_RANGE ^ 2 := hmine
    have hoffdock2 : ¬ Vec2.distSq m.pos mpos ≤ DOCK_RADIUS ^ 2 := hoffdock
    constructor <;>
      simp [Collector.update_mining, hmine2, hoffdock2, min_eq_left hfull]

/-- C2 witness: the conservation theorem applied at a concrete final
unload tick (capacity 150, purity 0.5, dt = 1, fill 75), with the
mining-to-full part instantiated at a collector at the asteroid one tick
from full. -/
theorem c2_witness :
    (Vec2.distSq c2Mothership0.pos c2WCollector.pos ≤ DOCK_RADIUS ^ 2 ∧
     c2WCollector.mining_fill - UNLOAD_RATE * 1 ≤ 0 ∧
     Vec2.distSq c2Asteroid.pos c2MCollector.pos ≤ MINE_RANGE ^ 2 ∧
     ¬ Vec2.distSq c2Mothership0.pos c2MCollector.pos ≤ DOCK_RADIUS ^ 2 ∧
     c2MCollector.mining_capacity ≤ c2MCollector.mining_fill + MINE_RATE * 1) ∧
    ((c2WCollector.update_mining (some c2Mothership0) 1).2 =
        some (c2Mothership0.add_resource "M" 75) ∧
     (c2WCollector.update_mining (some c2Mothership0) 1).1.mining_fill = 0 ∧
     (c2MCollector.update_mining (some c2Mothership0) 1).1.mining_fill = 150 ∧
     (c2MCollector.update_mining (some c2Mothership0) 1).1.returning_to_ship = true) := by
  have hdock : Vec2.distSq c2Mothership0.pos c2WCollector.pos ≤ DOCK_RADIUS ^ 2 := by
    norm_num [Vec2.distSq, DOCK_RADIUS, c2Mothership0, c2WCollector]
  have hempty : c2WCollector.mining_fill - UNLOAD_RATE * 1 ≤ 0 := by
    norm_num [c2WCollector, UNLOAD_RATE]
  have hmine : Vec2.distSq c2Asteroid.pos c2MCollector.pos ≤ MINE_RANGE ^ 2 := by
    norm_num [Vec2.distSq, MINE_RANGE, c2Asteroid, c2MCollector]
  have hoffdock : ¬ Vec2.distSq c2Mothership0.pos c2MCollector.pos ≤ DOCK_RADIUS ^ 2 := by
    norm_num [Vec2.distSq, DOCK_RADIUS, c2Mothership0, c2MCollector]
  have hfull : c2MCollector.mining_capacity ≤ c2MCollector.mining_fill + MINE_RATE * 1 := by
    norm_num [c2MCollector, MINE_RATE]
  have h := c2_mining_conservation c2WCollector c2Mothership0 c2Asteroid 1 rfl rfl hdock hempty
  have hmfull := h.2.2.2.1 c2MCollector rfl rfl hmine hoffdock hfull
  refine ⟨⟨hdock, hempty, hmine, hoffdock, hfull⟩, ?_, h.2.1, hmfull.1, hmfull.2⟩
  have h1 := h.1
  have hamt : pyRound (150 * (2⁻¹ : ℚ)) = 75 := by norm_num [pyRound]
  simpa [c2WCollector, c2Asteroid, hamt] using h1

-- ------------------------------------------------------------------
-- C3: damage routing is a binary choice per hit
-- ------------------------------------------------------------------

/-- C3: for every projectile hit and every collision-damage application,
if the unit has max armor > 0 and armor > 0 the entire hit goes through
`take_armor_damage` and health is unchanged; otherwise the entire hit
goes through `take_damage` and armor is unchanged — a hit is never split
between armor and health in one resolution step. -/
theorem c3_damage_routing (u : CombatUnit) (pr : CombatProjectile) (dmg : ℚ) :
    (0 < u.max_armor ∧ 0 < u.armor →
      (routeProjectileDamage u pr).health = u.health ∧
      (routeProjectileDamage u pr).armor = max 0 (u.armor - pr.armor_damage) ∧
      (routeCollisionDamage u dmg).health = u.health ∧
      (routeCollisionDamage u dmg).armor = max 0 (u.armor - dmg)) ∧
    (¬ (0 < u.max_armor ∧ 0 < u.armor) →
      (routeProjectileDamage u pr).armor = u.armor ∧
      (routeProjectileDamage u pr).health = max 0 (u.health - pr.hull_damage) ∧
      (routeCollisionDamage u dmg).armor = u.armor ∧
      (routeCollisionDamage u dmg).health = max 0 (u.health - dmg)) := by
  constructor <;> intro h <;>
    simp [routeProjectileDamage, routeCollisionDamage, CombatUnit.take_damage,
      CombatUnit.take_armor_damage, h]

/-- C3 witness: the routing theorem applied to a concrete armored unit
(armor 80, hit leaves health at 200) and a concrete unarmored unit
(hit leaves armor at 0 and takes 50 off health). -/
theorem c3_witness :
    (0 < c3Armored.max_armor ∧ 0 < c3Armored.armor) ∧
    (routeProjectileDamage c3Armored c3Proj).health = c3Armored.health ∧
    ¬ (0 < c3Unarmored.max_armor ∧ 0 < c3Unarmored.armor) ∧
    (routeProjectileDamage c3Unarmored c3Proj).health =
      max 0 (c3Unarmored.health - c3Proj.hull_damage) := by
  have ha : 0 < c3Armored.max_armor ∧ 0 < c3Armored.armor := by
    constructor <;> norm_num [c3Armored]
  have hu : ¬ (0 < c3Unarmored.max_armor ∧ 0 < c3Unarmored.armor) := by
    norm_num [c3Unarmored]
  exact ⟨ha, ((c3_damage_routing c3Armored c3Proj 0).1 ha).1, hu,
    ((c3_damage_routing c3Unarmored c3Proj 0).2 hu).2.1⟩

-- ------------------------------------------------------------------
-- C4: one-tick damage overlap
-- ------------------------------------------------------------------

/-- C4 counterexample: a player unit with 10 health is killed by an
enemy projectile (hull damage 50) during projectile collision
resolution, and by the time `run_game` reaches the residual
`handle_collisions` call of the same tick the unit has already been
pruned — the player list passed to the residual phase is empty, so the
unit is not present and not eligible for residual collision damage,
refuting the claim. -/
theorem c4_counterexample :
    ((handle_projectile_collisions hitsAll [c4Proj] [c4Victim] []).2.1.map
        CombatUnit.health = [0]) ∧
    residualPhaseFleets hitsAll [c4Proj] [c4Victim] [] = ([], []) := by
  have hroute : routeProjectileDamage
      { pos := ⟨0, 0⟩, health := 10, max_health := 100, armor := 0, max_armor := 0,
        bullet_damage := 0, armor_damage := 0, fire_range := 0, cooldown := 0,
        fire_period := 1 }
      { pos := ⟨0, 0⟩, dir := ⟨1, 0⟩, hull_damage := 50, armor_damage := 30,
        owner_is_enemy := true } =
      { pos := ⟨0, 0⟩, health := 0, max_health := 100, armor := 0, max_armor := 0,
        bullet_damage := 0, armor_damage := 0, fire_range := 0, cooldown := 0,
        fire_period := 1 } := by
    norm_num [routeProjectileDamage, CombatUnit.take_damage]
  have hres : handle_projectile_collisions hitsAll [c4Proj] [c4Victim] [] =
      ([], [{ pos := ⟨0, 0⟩, health := 0, max_health := 100, armor := 0, max_armor := 0,
              bullet_damage := 0, armor_damage := 0, fire_range := 0, cooldown := 0,
              fire_period := 1 }], []) := by
    simp [handle_projectile_collisions, handleProjectileCollisionsE, resolveProjectileE,
      hitsAll, c4Proj, c4Victim, hroute]
  constructor
  · rw [hres]
    rfl
  · rw [residualPhaseFleets, hres]
    norm_num [pruneDead]

/-- C4 (amended): within a tick, death pruning happens once but it
precedes the residual collision phase, so every unit the residual
`handle_collisions` call sees has health > 0 (a unit killed by a
projectile that tick receives no residual collision damage); the
residual phase itself never removes units, so the one-tick overlap runs
the other way: a unit killed by residual collision damage stays in its
fleet (the lists keep their length) until the next tick's pruning. -/
theorem c4_one_tick_overlap_amended (hits : CombatProjectile → CombatUnit → Bool)
    (collide : CombatUnit → CombatUnit → Bool) (dmg : ℚ)
    (projs : List CombatProjectile) (player enemy : List CombatUnit) :
    ((residualPhaseFleets hits projs player enemy).1.all fun u => decide (0 < u.health)) = true ∧
    ((residualPhaseFleets hits projs player enemy).2.all fun u => decide (0 < u.health)) = true ∧
    (handle_collisions collide dmg player enemy).1.length = player.length ∧
    (handle_collisions collide dmg player enemy).2.length = enemy.length :=
  ⟨pruneDead_all_alive _, pruneDead_all_alive _,
    (handle_collisions_length collide dmg player enemy).1,
    (handle_collisions_length collide dmg player enemy).2⟩

-- ------------------------------------------------------------------
-- C5: dead-unit exclusion
-- ------------------------------------------------------------------

/-- C5 counterexample: an enemy unit with 30 health survives the
projectile and pruning phases of a tick but is killed by the residual
collision damage (40) at the end of it; in the next tick the auto-fire
phase runs before that tick's pruning, and the player shooter still
selects the dead unit (health 0) as nearest target and fires a
projectile toward it — refuting the claim that a dead unit is never
targeted or fired upon as of the next tick. -/
theorem c5_counterexample :
    ((tickCombatPhases hitsAll collideAll 40 [] [c5Shooter] [c5Enemy]).2.map
        CombatUnit.health = [0]) ∧
    ((handle_auto_fire (tickCombatPhases hitsAll collideAll 40 [] [c5Shooter] [c5Enemy]).1
        (tickCombatPhases hitsAll collideAll 40 [] [c5Shooter] [c5Enemy]).2 false).2.map
        CombatProjectile.dir = [⟨10, 0⟩]) := by
  have hS : routeCollisionDamage
      { pos := ⟨0, 0⟩, health := 100, max_health := 100, armor := 0, max_armor := 0,
        bullet_damage := 5, armor_damage := 0, fire_range := 100, cooldown := 0,
        fire_period := 2 } 40 =
      { pos := ⟨0, 0⟩, health := 60, max_health := 100, armor := 0, max_armor := 0,
        bullet_damage := 5, armor_damage := 0, fire_range := 100, cooldown := 0,
        fire_period := 2 } := by
    norm_num [routeCollisionDamage, CombatUnit.take_damage]
  have hE : routeCollisionDamage
      { pos := ⟨10, 0⟩, health := 30, max_health := 30, armor := 0, max_armor := 0,
        bullet_damage := 4, armor_damage := 0, fire_range := 150, cooldown := 1,
        fire_period := 2 } 40 =
      { pos := ⟨10, 0⟩, health := 0, max_health := 30, armor := 0, max_armor := 0,
        bullet_damage := 4, armor_damage := 0, fire_range := 150, cooldown := 1,
        fire_period := 2 } := by
    norm_num [routeCollisionDamage, CombatUnit.take_damage]
  have htick : tickCombatPhases hitsAll collideAll 40 [] [c5Shooter] [c5Enemy] =
      ([{ pos := ⟨0, 0⟩, health := 60, max_health := 100, armor := 0, max_armor := 0,
          bullet_damage := 5, armor_damage := 0, fire_range := 100, cooldown := 0,
          fire_period := 2 }],
       [{ pos := ⟨10, 0⟩, health := 0, max_health := 30, armor := 0, max_armor := 0,
          bullet_damage := 4, armor_damage := 0, fire_range := 150, cooldown := 1,
          fire_period := 2 }]) := by
    norm_num [tickCombatPhases, residualPhaseFleets, handle_projectile_collisions,
      handleProjectileCollisionsE, pruneDead, handle_collisions, collideRow, collideAll,
      hS, hE, c5Shooter, c5Enemy]
  rw [htick]
  refine ⟨rfl, ?_⟩
  norm_num [handle_auto_fire, autoFireGo, nearestTarget, CombatUnit.is_target_in_range,
    CombatUnit.ready_to_fire, CombatUnit.reset_cooldown, Vec2.distSq, Vec2.sub_def]

/-- C5 (amended): exclusion of dead units happens exactly at the pruning
phase — the pruned lists contain only units with health > 0 — but
auto-fire performs no liveness filtering of its own: its nearest-target
selection returns any sole target regardless of health, and a source
with positive bullet damage that is in range and ready fires at it, so a
unit killed after pruning (residual collision phase) can be targeted and
fired upon in the next tick before that tick's pruning. -/
theorem c5_dead_exclusion_amended (fleet : List CombatUnit) (s u : CombatUnit)
    (hbd : 0 < s.bullet_damage) (hrange : s.is_target_in_range u = true)
    (hready : s.ready_to_fire = true) :
    ((pruneDead fleet).all fun v => decide (0 < v.health)) = true ∧
    nearestTarget s [u] = some u ∧
    (handle_auto_fire [s] [u] false).2.map CombatProjectile.dir = [u.pos - s.pos] := by
  refine ⟨pruneDead_all_alive _, rfl, ?_⟩
  simp [handle_auto_fire, autoFireGo, nearestTarget, hrange, hready, not_le.mpr hbd]

/-- C5 witness: the amended theorem applied to the concrete shooter and
a dead (health 0) target in range: the shooter fires at it. -/
theorem c5_witness :
    (0 < c5Shooter.bullet_damage ∧
     c5Shooter.is_target_in_range { c5Enemy with health := 0 } = true ∧
     c5Shooter.ready_to_fire = true ∧
     ({ c5Enemy with health := 0 } : CombatUnit).health ≤ 0) ∧
    (handle_auto_fire [c5Shooter] [{ c5Enemy with health := 0 }] false).2.map
      CombatProjectile.dir = [({ c5Enemy with health := 0 } : CombatUnit).pos - c5Shooter.pos] := by
  have h1 : 0 < c5Shooter.bullet_damage := by norm_num [c5Shooter]
  have h2 : c5Shooter.is_target_in_range { c5Enemy with health := 0 } = true := by
    norm_num [CombatUnit.is_target_in_range, Vec2.distSq, c5Shooter, c5Enemy]
  have h3 : c5Shooter.ready_to_fire = true := by
    norm_num [CombatUnit.ready_to_fire, c5Shooter]
  exact ⟨⟨h1, h2, h3, by norm_num [c5Enemy]⟩,
    (c5_dead_exclusion_amended [] c5Shooter { c5Enemy with health := 0 } h1 h2 h3).2.2⟩

-- ------------------------------------------------------------------
-- C6: health and armor never exceed their maxima
-- ------------------------------------------------------------------

/-- C6: both healing paths preserve the upper bounds: if health ≤ max
health and armor ≤ max armor before, then after collector healing
(`_apply_healing`) and after a station-healing step the bounds still
hold (and the maxima themselves are unchanged). -/
theorem c6_no_overheal (t : ShipRef) (u : CombatUnit) (dt rate : ℚ)
    (ht1 : t.health ≤ t.max_health) (ht2 : t.armor ≤ t.max_armor)
    (hu1 : u.health ≤ u.max_health) (hu2 : u.armor ≤ u.max_armor) :
    ((apply_healing t dt).health ≤ t.max_health ∧
     (apply_healing t dt).armor ≤ t.max_armor ∧
     (apply_healing t dt).max_health = t.max_health ∧
     (apply_healing t dt).max_armor = t.max_armor) ∧
    ((stationHealStep rate dt u).health ≤ u.max_health ∧
     (stationHealStep rate dt u).armor ≤ u.max_armor ∧
     (stationHealStep rate dt u).max_health = u.max_health ∧
     (stationHealStep rate dt u).max_armor = u.max_armor) := by
  exact ⟨⟨apply_healing_health_le t dt ht1, apply_healing_armor_le t dt ht2,
      apply_healing_max_health t dt, apply_healing_max_armor t dt⟩,
    ⟨stationHealStep_health_le rate dt u hu1, stationHealStep_armor_le rate dt u hu2,
      stationHealStep_max_health rate dt u, stationHealStep_max_armor rate dt u⟩⟩

/-- C6 witness: the bound-preservation theorem applied to a concrete
damaged heal target (50/100 health, 90/100 armor) and a concrete
station-healed unit (150/200 health, 70/100 armor) with dt = 1 and
station rate 20. -/
theorem c6_witness :
    (c6Target.health ≤ c6Target.max_health ∧ c6Target.armor ≤ c6Target.max_armor ∧
     c6Unit.health ≤ c6Unit.max_health ∧ c6Unit.armor ≤ c6Unit.max_armor) ∧
    ((apply_healing c6Target 1).health ≤ c6Target.max_health ∧
     (apply_healing c6Target 1).armor ≤ c6Target.max_armor ∧
     (stationHealStep 20 1 c6Unit).health ≤ c6Unit.max_health ∧
     (stationHealStep 20 1 c6Unit).armor ≤ c6Unit.max_armor) := by
  have h1 : c6Target.health ≤ c6Target.max_health := by norm_num [c6Target]
  have h2 : c6Target.armor ≤ c6Target.max_armor := by norm_num [c6Target]
  have h3 : c6Unit.health ≤ c6Unit.max_health := by norm_num [c6Unit]
  have h4 : c6Unit.armor ≤ c6Unit.max_armor := by norm_num [c6Unit]
  have h := c6_no_overheal c6Target c6Unit 1 20 h1 h2 h3 h4
  exact ⟨⟨h1, h2, h3, h4⟩, h.1.1, h.1.2.1, h.2.1, h.2.2.1⟩

-- ------------------------------------------------------------------
-- C7: selection rectangle semantics
-- ------------------------------------------------------------------

/-- C7 counterexample: a unit at (100, 100) is selected before the
interaction; a sub-threshold drag (press and release both at the origin,
minimum pixel size 6) ends with the unit deselected, because the
MOUSEBUTTONDOWN handler already replaced the selection with the
point-inside hit test of the press point — so the selection that existed
before the drag began is NOT left unchanged, refuting the claim. -/
theorem c7_counterexample :
    c7Unit.selected = true ∧
    (dragSelect [c7Unit] (0, 0) (0, 0) 6).map SelUnit.selected = [false] := by
  refine ⟨rfl, ?_⟩
  norm_num [dragSelect, clickSelect, releaseSelect, PyRect.normalize,
    SelUnit.point_inside, c7Unit]

/-- C7 (amended): on release of a drag whose normalized rectangle
strictly exceeds the minimum pixel size in both dimensions, the selected
set becomes exactly the units whose position the rectangle contains; a
sub-threshold release leaves the selection unchanged — unchanged from
the state established by the press's click-select (point-inside hit test
at the press point), not necessarily the selection that existed before
the press. -/
theorem c7_selection_rectangle_amended (units : List SelUnit) (r : PyRect) (minPx : ℤ)
    (press release : ℤ × ℤ) :
    (minPx < r.normalize.w ∧ minPx < r.normalize.h →
      releaseSelect units r minPx =
        units.map fun u => { u with selected := r.normalize.collidepoint u.pos }) ∧
    (¬ (minPx < r.normalize.w ∧ minPx < r.normalize.h) →
      releaseSelect units r minPx = units) ∧
    (¬ (minPx < (PyRect.normalize
          ⟨press.1, press.2, release.1 - press.1, release.2 - press.2⟩).w ∧
        minPx < (PyRect.normalize
          ⟨press.1, press.2, release.1 - press.1, release.2 - press.2⟩).h) →
      dragSelect units press release minPx =
        clickSelect units ⟨(press.1 : ℚ), (press.2 : ℚ)⟩) := by
  refine ⟨fun h => ?_, fun h => ?_, fun h => ?_⟩
  · simp only [releaseSelect, if_pos h]
  · simp only [releaseSelect, if_neg h]
  · simp only [dragSelect, releaseSelect, if_neg h]

/-- C7 witness: the amended theorem applied to a super-threshold
rectangle (30 by 30, minimum 6) over a unit inside it and a unit outside
it: the selection becomes exactly the inside unit. -/
theorem c7_witness :
    ((6 : ℤ) < (PyRect.normalize ⟨20, 30, 30, 30⟩).w ∧
     (6 : ℤ) < (PyRect.normalize ⟨20, 30, 30, 30⟩).h) ∧
    releaseSelect [c7Inside, c7Unit] ⟨20, 30, 30, 30⟩ 6 =
      [{ c7Inside with selected := true }, { c7Unit with selected := false }] := by
  have hcond : (6 : ℤ) < (PyRect.normalize ⟨20, 30, 30, 30⟩).w ∧
      (6 : ℤ) < (PyRect.normalize ⟨20, 30, 30, 30⟩).h := by
    norm_num [PyRect.normalize]
  have h := (c7_selection_rectangle_amended [c7Inside, c7Unit] ⟨20, 30, 30, 30⟩ 6
    (0, 0) (0, 0)).1 hcond
  refine ⟨hcond, ?_⟩
  rw [h]
  norm_num [PyRect.normalize, PyRect.collidepoint, c7Inside, c7Unit]

-- ------------------------------------------------------------------
-- C8: formation move
-- ------------------------------------------------------------------

/-- C8: when a group move to T is issued and the set of selected,
non-recalling shapes is nonempty, every such shape's mover target
becomes T + (its position − the centroid of the selected shapes) and its
formation offset is recorded (other units are untouched); and both the
centroid and the multiset of offsets are invariant under reordering of
the unit list (hence of the selection/iteration order). -/
theorem c8_formation_move (units units2 : List SelUnit) (T : Vec2)
    (hperm : units.Perm units2) :
    (selectedShapes units ≠ [] →
      group_move units T = units.map fun s =>
        if s.selected && !s.recalling then
          { s with formation_offset := s.pos - centroid (selectedShapes units),
                   mover_target := T + (s.pos - centroid (selectedShapes units)) }
        else s) ∧
    centroid (selectedShapes units2) = centroid (selectedShapes units) ∧
    (↑((selectedShapes units2).map fun s => s.pos - centroid (selectedShapes units2)) :
        Multiset Vec2) =
      ↑((selectedShapes units).map fun s => s.pos - centroid (selectedShapes units)) := by
  have hpermSel : (selectedShapes units).Perm (selectedShapes units2) := hperm.filter _
  have hcent : centroid (selectedShapes units2) = centroid (selectedShapes units) := by
    unfold centroid
    rw [sumPos_perm hpermSel.symm, ← hpermSel.length_eq]
  refine ⟨fun h => ?_, hcent, ?_⟩
  · unfold group_move
    rw [if_neg (by simpa [List.isEmpty_iff] using h)]
  · rw [hcent]
    exact Multiset.coe_eq_coe.mpr (hpermSel.symm.map _)

/-- C8 witness: the formation-move theorem applied to the two concrete
selected units at (0,0) and (4,0) listed in both orders: the centroid is
the same and the targets follow the T + offset formula. -/
theorem c8_witness :
    ([c8A, c8B].Perm [c8B, c8A] ∧ selectedShapes [c8A, c8B] ≠ []) ∧
    (centroid (selectedShapes [c8B, c8A]) = centroid (selectedShapes [c8A, c8B]) ∧
     group_move [c8A, c8B] ⟨7, 9⟩ = [c8A, c8B].map fun s =>
        if s.selected && !s.recalling then
          { s with formation_offset := s.pos - centroid (selectedShapes [c8A, c8B]),
                   mover_target := (⟨7, 9⟩ : Vec2) + (s.pos - centroid (selectedShapes [c8A, c8B])) }
        else s) := by
  have hperm : [c8A, c8B].Perm [c8B, c8A] := List.Perm.swap c8B c8A []
  have hne : selectedShapes [c8A, c8B] ≠ [] := by
    simp [selectedShapes, c8A, c8B]
  have h := c8_formation_move [c8A, c8B] [c8B, c8A] ⟨7, 9⟩ hperm
  exact ⟨⟨hperm, hne⟩, h.2.1, h.1 hne⟩

-- ------------------------------------------------------------------
-- C9: exception propagation in core state transitions
-- ------------------------------------------------------------------

/-- C9 counterexample: a damage application that raises (every call
returns an error) is invoked while resolving a projectile hit, yet the
collision resolver returns a perfectly normal result — the projectile is
destroyed, the fleet is unchanged and no exception reaches the caller —
refuting the claim that such exceptions propagate out of the resolving
function. -/
theorem c9_counterexample :
    c9FailDmg c9Unit c9Proj = Except.error "damage failure" ∧
    handleProjectileCollisionsE hitsAll c9FailDmg [c9Proj] [c9Unit] [] =
      ([], [c9Unit], []) :=
  ⟨rfl, rfl⟩

/-- C9 (amended): the blanket `except Exception:` of
`handle_projectile_collisions` swallows exceptions raised while applying
damage: for a damage application that always raises, the resolver
returns normally with both fleets untouched, and the only effect is that
every projectile that collided with some opposing unit is destroyed
(non-colliding projectiles survive).  No exception propagates to the
caller. -/
theorem c9_exceptions_swallowed_amended (hits : CombatProjectile → CombatUnit → Bool)
    (e : String) (dmg : CombatUnit → CombatProjectile → Except String CombatUnit)
    (hdmg : ∀ u p, dmg u p = Except.error e)
    (projs : List CombatProjectile) (player enemy : List CombatUnit) :
    handleProjectileCollisionsE hits dmg projs player enemy =
      (projs.filter fun pr => !(if pr.owner_is_enemy then player else enemy).any (hits pr),
       player, enemy) := by
  induction projs with
  | nil => simp [handleProjectileCollisionsE]
  | cons pr rest ih =>
    have hres : ∀ fl : List CombatUnit, resolveProjectileE hits dmg pr fl =
        if fl.any (hits pr) then Except.error e else Except.ok (fl, false) :=
      fun fl => resolveProjectileE_error hits e dmg hdmg pr fl
    simp only [handleProjectileCollisionsE, List.filter_cons]
    by_cases ho : pr.owner_is_enemy
    · by_cases hany : player.any (hits pr)
      · simp [hres, ho, hany, ih]
      · simp [hres, ho, hany, ih]
    · by_cases hany : enemy.any (hits pr)
      · simp [hres, ho, hany, ih]
      · simp [hres, ho, hany, ih]

/-- C9 witness: the amended theorem applied to the concrete
always-raising damage application, one enemy projectile and one player
unit it hits: the resolver returns normally with the projectile
destroyed and the fleet untouched. -/
theorem c9_witness :
    (∀ u p, c9FailDmg u p = Except.error "damage failure") ∧
    handleProjectileCollisionsE hitsAll c9FailDmg [c9Proj] [c9Unit] [] =
      ([c9Proj].filter fun pr =>
        !(if pr.owner_is_enemy then [c9Unit] else []).any (hitsAll pr), [c9Unit], []) :=
  ⟨fun _ _ => rfl,
   c9_exceptions_swallowed_amended hitsAll "damage failure" c9FailDmg (fun _ _ => rfl)
     [c9Proj] [c9Unit] []⟩

-- ------------------------------------------------------------------
-- C10: projectile directions are unit vectors
-- ------------------------------------------------------------------

/-- C10: the constructor's direction always has unit length (a
zero-length argument becomes (1, 0), anything else is normalised);
`update(dt)` never changes the direction and displaces the position by
exactly `speed * dt` along it; and the stored direction is invariant
under positive rescaling of the direction argument. -/
theorem c10_projectile_unit_direction (pos d : ℝ × ℝ) (speed lt dt : ℝ) :
    ((mkProjectile pos d speed lt).direction.1 ^ 2 +
       (mkProjectile pos d speed lt).direction.2 ^ 2 = 1) ∧
    (∀ q : Projectile, (q.update dt).direction = q.direction ∧
       (q.update dt).pos.1 - q.pos.1 = q.direction.1 * (q.speed * dt) ∧
       (q.update dt).pos.2 - q.pos.2 = q.direction.2 * (q.speed * dt)) ∧
    (∀ c : ℝ, 0 < c →
       (mkProjectile pos (c * d.1, c * d.2) speed lt).direction =
         (mkProjectile pos d speed lt).direction) := by
  refine ⟨?_, ?_, ?_⟩
  · unfold mkProjectile normalizeDir
    by_cases hs : d.1 ^ 2 + d.2 ^ 2 = 0
    · simp [hs]
    · have hpos : 0 < d.1 ^ 2 + d.2 ^ 2 :=
        lt_of_le_of_ne (by positivity) (Ne.symm hs)
      have hsqrt : Real.sqrt (d.1 ^ 2 + d.2 ^ 2) ^ 2 = d.1 ^ 2 + d.2 ^ 2 :=
        Real.sq_sqrt hpos.le
      have hsne : Real.sqrt (d.1 ^ 2 + d.2 ^ 2) ≠ 0 := by
        intro h0
        rw [h0] at hsqrt
        simp at hsqrt
        exact hs hsqrt.symm
      simp only [hs, if_false]
      field_simp
  · intro q
    refine ⟨rfl, ?_, ?_⟩ <;> (unfold Projectile.update; dsimp only; ring)
  · intro c hc
    have hc0 : c ≠ 0 := ne_of_gt hc
    have hscale : (c * d.1) ^ 2 + (c * d.2) ^ 2 = c ^ 2 * (d.1 ^ 2 + d.2 ^ 2) := by ring
    unfold mkProjectile normalizeDir
    by_cases hs : d.1 ^ 2 + d.2 ^ 2 = 0
    · simp [hs, hscale]
    · have hs2 : (c * d.1) ^ 2 + (c * d.2) ^ 2 ≠ 0 := by
        rw [hscale]
        exact mul_ne_zero (pow_ne_zero 2 hc0) hs
      have hsqrtscale : Real.sqrt ((c * d.1) ^ 2 + (c * d.2) ^ 2) =
          c * Real.sqrt (d.1 ^ 2 + d.2 ^ 2) := by
        rw [hscale, Real.sqrt_mul (sq_nonneg c), Real.sqrt_sq hc.le]
      simp only [hs, hs2, if_false]
      rw [hsqrtscale]
      refine Prod.ext ?_ ?_ <;> simp only [] <;> exact mul_div_mul_left _ _ hc0

/-- C10 witness: the direction theorem applied at the concrete argument
(3, 4) with positive scale 2: scaling the direction argument does not
change the stored direction. -/
theorem c10_witness :
    (0 < (2 : ℝ)) ∧
    (mkProjectile (0, 0) (2 * 3, 2 * 4) 100 2).direction =
      (mkProjectile (0, 0) ((3 : ℝ), (4 : ℝ)) 100 2).direction :=
  ⟨by norm_num,
   (c10_projectile_unit_direction (0, 0) ((3 : ℝ), (4 : ℝ)) 100 2 1).2.2 2 (by norm_num)⟩

end SpaceGame
